import Mathlib

/-!
Verification of the filter-to-request compiler and session glue of the
solana-streamer repository (src/streaming/grpc/subscription.rs).

The embedding below translates the Rust source into Lean definitions:
hash maps keyed by synthetic, pairwise-distinct labels become association
lists in insertion order; `Option` stays `Option`; the fixed-size `i32`
commitment code is an `Int` (all values used are tiny, far from overflow).
Types declared elsewhere in the repository (not under the shown source
tree) or in external collaborator crates are modelled from the spec, as
marked on each such definition.
-/

/-- Modelled from the spec: `EventTypeFilter` (declared outside the shown
source tree) is "a set of recognized domain event categories the caller
wants decoded"; the source only consumes it through the three category
membership tests `include_block_event`, `include_account_event` and
`include_transaction_event`, so the model keeps exactly those three
observations. -/
structure EventTypeFilter where
  include_block_event : Bool
  include_account_event : Bool
  include_transaction_event : Bool
deriving DecidableEq, Repr, Inhabited

/-- Modelled from the spec: `AccountFilter` (declared outside the shown
source tree) is a "set of explicit account identifiers, set of
owner-program identifiers, set of byte-level sub-filters"; the byte-level
sub-filters are opaque payloads passed through verbatim, modelled as
strings. -/
structure AccountFilter where
  account : List String
  owner : List String
  filters : List String
deriving DecidableEq, Repr, Inhabited

/-- Modelled from the spec: `TransactionFilter` (declared outside the shown
source tree) has "three disjoint identifier sets — must-include-one-of,
must-exclude-all-of, must-include-all-of". -/
structure TransactionFilter where
  account_include : List String
  account_exclude : List String
  account_required : List String
deriving DecidableEq, Repr, Inhabited

/-- Wire filter entry for the accounts section, with the fields the source
populates: identifier sets, byte-level sub-filters and the optional
non-empty-signature constraint. -/
structure SubscribeRequestFilterAccounts where
  account : List String
  owner : List String
  filters : List String
  nonempty_txn_signature : Option Bool
deriving DecidableEq, Repr, Inhabited

/-- Wire filter entry for the transactions section, with the fields the
source populates. -/
structure SubscribeRequestFilterTransactions where
  vote : Option Bool
  failed : Option Bool
  signature : Option String
  account_include : List String
  account_exclude : List String
  account_required : List String
deriving DecidableEq, Repr, Inhabited

/-- Wire filter entry for the full-blocks section. -/
structure SubscribeRequestFilterBlocks where
  account_include : List String
  include_transactions : Option Bool
  include_accounts : Option Bool
  include_entries : Option Bool
deriving DecidableEq, Repr, Inhabited

/-- Wire filter entry for the block-metadata section (no fields). -/
structure SubscribeRequestFilterBlocksMeta where
deriving DecidableEq, Repr, Inhabited

/-- Commitment level of the wire protocol; `Processed` is the weakest. -/
inductive CommitmentLevel where
  | Processed
  | Confirmed
  | Finalized
deriving DecidableEq, Repr, Inhabited

/-- The numeric wire code of a commitment level (the `as i32` cast in the
source); `Processed` is 0. -/
def CommitmentLevel.toI32 : CommitmentLevel → Int
  | .Processed => 0
  | .Confirmed => 1
  | .Finalized => 2

/-- An accounts filter map keyed by synthetic labels, in insertion order.
The source builds a hash map whose keys are pairwise distinct, so an
association list is a faithful model. -/
abbrev AccountsFilterMap := List (String × SubscribeRequestFilterAccounts)

/-- A transactions filter map keyed by synthetic labels, in insertion
order. -/
abbrev TransactionsFilterMap := List (String × SubscribeRequestFilterTransactions)

/-- The wire-level subscription request: four independent keyed sections
plus the commitment code. The remaining proto fields the source leaves at
`..Default::default()` are carried as defaulted fields. -/
structure SubscribeRequest where
  accounts : AccountsFilterMap
  transactions : TransactionsFilterMap
  blocks : List (String × SubscribeRequestFilterBlocks)
  blocks_meta : List (String × SubscribeRequestFilterBlocksMeta)
  commitment : Option Int
  slots : List String := []
  entry : List String := []
  accounts_data_slice : List String := []
  ping : Option Bool := none
deriving DecidableEq, Repr, Inhabited

/-- Connection limits of the client configuration (spec: "connection limits
\x7bmax decode size, connect timeout, request timeout\x7d"). -/
structure ConnectionConfig where
  max_decoding_message_size : Nat
  connect_timeout : Nat
  request_timeout : Nat
deriving DecidableEq, Repr, Inhabited

/-- Client configuration as consumed by the shown source. -/
structure ClientConfig where
  connection : ConnectionConfig
deriving DecidableEq, Repr, Inhabited

/-- The subscription manager: endpoint, optional token and configuration. -/
structure SubscriptionManager where
  endpoint : String
  x_token : Option String
  config : ClientConfig
deriving DecidableEq, Repr, Inhabited

/-- The accounts-section compiler,
`SubscriptionManager::subscribe_with_account_request`: bail out with `None`
when a supplied `EventTypeFilter` excludes account events or when the input
sequence is empty; otherwise emit one entry per input filter labelled
`account_<index>`, copying the identifier and sub-filter sets verbatim and
leaving the non-empty-signature constraint unset. -/
def subscribe_with_account_request (account_filter : List AccountFilter)
    (event_type_filter : Option EventTypeFilter) : Option AccountsFilterMap :=
  if event_type_filter.any (fun f => !f.include_account_event) then
    none
  else if account_filter.length = 0 then
    none
  else
    some (account_filter.enum.map (fun p =>
      ("account_" ++ toString p.1,
       { account := p.2.account
         owner := p.2.owner
         filters := p.2.filters
         nonempty_txn_signature := none })))

/-- The transactions-section compiler,
`SubscriptionManager::get_subscribe_request_filter`: bail out with `None`
when a supplied `EventTypeFilter` excludes transaction events; otherwise
emit one entry per input filter labelled `transaction_<index>` with
`vote = false` and `failed = false` fixed, no signature constraint, and the
three identifier sets copied verbatim. There is no empty-input bailout, so
an empty input yields `some []`. -/
def get_subscribe_request_filter (transaction_filter : List TransactionFilter)
    (event_type_filter : Option EventTypeFilter) : Option TransactionsFilterMap :=
  if event_type_filter.any (fun f => !f.include_transaction_event) then
    none
  else
    some (transaction_filter.enum.map (fun p =>
      ("transaction_" ++ toString p.1,
       { vote := some false
         failed := some false
         signature := none
         account_include := p.2.account_include
         account_exclude := p.2.account_exclude
         account_required := p.2.account_required })))

/-- The default full-blocks entry the source installs under the label `""`:
transaction details on, account data off, entries off. -/
def defaultBlocksEntry : SubscribeRequestFilterBlocks :=
  { account_include := []
    include_transactions := some true
    include_accounts := some false
    include_entries := some false }

/-- The request construction performed by
`SubscriptionManager::subscribe_with_request` before the network call: the
block-metadata and full-blocks sections follow the three-way decision on
the optional `EventTypeFilter`, the accounts and transactions sections are
the supplied maps defaulted to empty, and the commitment code is the
caller's value or `Processed`. -/
def subscribe_with_request (transactions : Option TransactionsFilterMap)
    (accounts : Option AccountsFilterMap) (commitment : Option CommitmentLevel)
    (event_type_filter : Option EventTypeFilter) : SubscribeRequest :=
  let blocks_meta :=
    if event_type_filter.any (fun f => f.include_block_event) then
      [("", SubscribeRequestFilterBlocksMeta.mk)]
    else if event_type_filter.isNone then
      [("", SubscribeRequestFilterBlocksMeta.mk)]
    else
      []
  let blocks :=
    if event_type_filter.any (fun f => f.include_block_event) then
      [("", defaultBlocksEntry)]
    else if event_type_filter.isNone then
      [("", defaultBlocksEntry)]
    else
      []
  { accounts := accounts.getD []
    transactions := transactions.getD []
    blocks := blocks
    blocks_meta := blocks_meta
    commitment :=
      match commitment with
      | some c => some c.toI32
      | none => some CommitmentLevel.Processed.toI32 }

/-- The full compilation pipeline as callers drive it: compile the two
filter sections from the declarative filters, then build the wire request. -/
def compileRequest (account_filter : List AccountFilter)
    (transaction_filter : List TransactionFilter)
    (commitment : Option CommitmentLevel)
    (event_type_filter : Option EventTypeFilter) : SubscribeRequest :=
  subscribe_with_request
    (get_subscribe_request_filter transaction_filter event_type_filter)
    (subscribe_with_account_request account_filter event_type_filter)
    commitment event_type_filter

/-- The block-metadata section as the spec's decision table states it:
absent filter or a filter including the block category yield exactly one
default entry, a filter excluding the block category yields an empty map. -/
def Spec.blockMetaSection :
    Option EventTypeFilter → List (String × SubscribeRequestFilterBlocksMeta)
  | none => [("", SubscribeRequestFilterBlocksMeta.mk)]
  | some f =>
      if f.include_block_event then [("", SubscribeRequestFilterBlocksMeta.mk)] else []

/-- The full-blocks section as the spec's decision table states it: absent
filter or a filter including the block category yield exactly one default
entry with transaction details on, accounts off, entries off; a filter
excluding the block category yields an empty map. -/
def Spec.blocksSection :
    Option EventTypeFilter → List (String × SubscribeRequestFilterBlocks)
  | none => [("", defaultBlocksEntry)]
  | some f => if f.include_block_event then [("", defaultBlocksEntry)] else []

/-- The accounts section as the spec words it: no section when a supplied
filter excludes account events or the input is empty, otherwise exactly one
entry per position `i` labelled `account_<i>` copying the input's sets
verbatim with no non-empty-signature constraint. -/
def Spec.accountsSection (account_filter : List AccountFilter)
    (event_type_filter : Option EventTypeFilter) : Option AccountsFilterMap :=
  if (event_type_filter.any (fun f => !f.include_account_event))
      || account_filter.isEmpty then
    none
  else
    some ((List.range account_filter.length).map (fun i =>
      ("account_" ++ toString i,
       { account := (account_filter.getD i default).account
         owner := (account_filter.getD i default).owner
         filters := (account_filter.getD i default).filters
         nonempty_txn_signature := none })))

/-- Modelled from the spec: the subscription session's one piece of mutable
shared state, "a cancellation flag"; cloning shares the flag, so all clones
observe the same `SessionState`. The session code (`stop()`,
`YellowstoneGrpc`) is part of the repository but outside the shown source
tree. -/
structure SessionState where
  cancelled : Bool
deriving DecidableEq, Repr, Inhabited

/-- Modelled from the spec: `stop()` sets the shared cancellation flag; the
read loop observes it at each iteration boundary and unwinds. Any clone
operates on the same shared state, so a stop from any clone is this same
state transformation. -/
def SessionState.stop (s : SessionState) : SessionState :=
  { s with cancelled := true }

/-- Modelled from the spec: the external connection library's builder, as
configured by `SubscriptionManager::connect`. Each field records one
configuration the builder chain can set; the two timeouts start unset. -/
structure GeyserGrpcBuilder where
  endpoint : String
  x_token : Option String
  tls_native_roots : Bool
  max_decoding_message_size : Nat
  connect_timeout : Option Nat
  request_timeout : Option Nat
deriving DecidableEq, Repr, Inhabited

/-- Modelled from the spec: `GeyserGrpcClient::build_from_shared` starts a
builder for the endpoint with library defaults (no token, no TLS roots
chosen, 4 MiB inbound limit, no timeouts). -/
def build_from_shared (endpoint : String) : GeyserGrpcBuilder :=
  { endpoint := endpoint
    x_token := none
    tls_native_roots := false
    max_decoding_message_size := 4194304
    connect_timeout := none
    request_timeout := none }

/-- Modelled from the spec: the builder's `x_token` setter. -/
def GeyserGrpcBuilder.set_x_token (b : GeyserGrpcBuilder) (t : Option String) :
    GeyserGrpcBuilder :=
  { b with x_token := t }

/-- Modelled from the spec: the builder's `tls_config` setter, applied by
the source with the platform's native trusted roots. -/
def GeyserGrpcBuilder.tls_config_native_roots (b : GeyserGrpcBuilder) :
    GeyserGrpcBuilder :=
  { b with tls_native_roots := true }

/-- Modelled from the spec: the builder's inbound message size bound. -/
def GeyserGrpcBuilder.set_max_decoding_message_size (b : GeyserGrpcBuilder)
    (n : Nat) : GeyserGrpcBuilder :=
  { b with max_decoding_message_size := n }

/-- Modelled from the spec: the builder's connection-establishment timeout. -/
def GeyserGrpcBuilder.set_connect_timeout (b : GeyserGrpcBuilder) (secs : Nat) :
    GeyserGrpcBuilder :=
  { b with connect_timeout := some secs }

/-- Modelled from the spec: the builder's per-request timeout. -/
def GeyserGrpcBuilder.set_request_timeout (b : GeyserGrpcBuilder) (secs : Nat) :
    GeyserGrpcBuilder :=
  { b with request_timeout := some secs }

/-- The builder chain of `SubscriptionManager::connect`, lines 35-40 of the
source: endpoint, token, native-root TLS, inbound size bound, then the two
separate timeouts from the configuration. -/
def SubscriptionManager.connect_config (m : SubscriptionManager) :
    GeyserGrpcBuilder :=
  ((((build_from_shared m.endpoint).set_x_token
        m.x_token).tls_config_native_roots.set_max_decoding_message_size
      m.config.connection.max_decoding_message_size).set_connect_timeout
    m.config.connection.connect_timeout).set_request_timeout
    m.config.connection.request_timeout

/-- The final step of `SubscriptionManager::connect`: hand the configured
builder to the library's connect, propagating its error to the caller via
`?`. The library call is the external collaborator, abstracted as `env`. -/
def SubscriptionManager.connect (m : SubscriptionManager)
    (env : GeyserGrpcBuilder → Except String Unit) : Except String Unit :=
  env m.connect_config

/-- The transactions section as the spec words it: no section when a
supplied filter excludes transaction events, otherwise exactly one entry
per position `i` labelled `transaction_<i>` with vote and failed fixed to
false, no signature constraint, and the three identifier sets copied
verbatim. -/
def Spec.transactionsSection (transaction_filter : List TransactionFilter)
    (event_type_filter : Option EventTypeFilter) : Option TransactionsFilterMap :=
  if event_type_filter.any (fun f => !f.include_transaction_event) then
    none
  else
    some ((List.range transaction_filter.length).map (fun i =>
      ("transaction_" ++ toString i,
       { vote := some false
         failed := some false
         signature := none
         account_include := (transaction_filter.getD i default).account_include
         account_exclude := (transaction_filter.getD i default).account_exclude
         account_required := (transaction_filter.getD i default).account_required })))

theorem enum_map_eq_range_map {α β : Type} [Inhabited α] (l : List α)
    (g : Nat × α → β) :
    l.enum.map g = (List.range l.length).map (fun i => g (i, l.getD i default)) := by
  apply List.ext_getElem
  · simp
  · intro i h1 h2
    simp only [List.length_map, List.enum_length] at h1
    simp [List.getElem_enum, List.getD_eq_getElem, h1]

/-- C1: for every optional EventTypeFilter (and whatever accounts and
transactions maps and commitment are supplied), the compiled wire request's
block-metadata and full-blocks sections follow the spec's three-way
decision table: absent filter or a filter including the block category give
exactly one default entry in each section (the full-blocks entry with
transaction details on, accounts off, entries off); a filter excluding the
block category gives empty maps. -/
theorem blocks_follow_decision_table (tx : Option TransactionsFilterMap)
    (acc : Option AccountsFilterMap) (c : Option CommitmentLevel)
    (etf : Option EventTypeFilter) :
    (subscribe_with_request tx acc c etf).blocks_meta = Spec.blockMetaSection etf ∧
    (subscribe_with_request tx acc c etf).blocks = Spec.blocksSection etf := by
  cases etf with
  | none =>
      simp [subscribe_with_request, Spec.blockMetaSection, Spec.blocksSection]
  | some f =>
      cases h : f.include_block_event <;>
        simp [subscribe_with_request, Spec.blockMetaSection, Spec.blocksSection, h]

/-- C2: the accounts-section compiler agrees, on every input, with the
spec's description: no section when a supplied EventTypeFilter excludes
account events or the input sequence is empty; otherwise exactly one entry
per position labelled account_0 .. account_(N-1), preserving the account,
owner and byte-filter sets verbatim with no non-empty-signature
constraint. -/
theorem accounts_section_matches_spec (account_filter : List AccountFilter)
    (event_type_filter : Option EventTypeFilter) :
    subscribe_with_account_request account_filter event_type_filter =
      Spec.accountsSection account_filter event_type_filter := by
  unfold subscribe_with_account_request Spec.accountsSection
  rw [enum_map_eq_range_map]
  rcases h : event_type_filter.any (fun f => !f.include_account_event) with _ | _ <;>
    cases account_filter <;> simp [h]

/-- C3: the transactions-section compiler agrees, on every input, with the
spec's description: no section when a supplied EventTypeFilter excludes
transaction events, regardless of the input; otherwise one entry per
position labelled transaction_(i) with vote and failed fixed to false, no
signature constraint, and the three identifier sets copied verbatim. -/
theorem transactions_section_matches_spec
    (transaction_filter : List TransactionFilter)
    (event_type_filter : Option EventTypeFilter) :
    get_subscribe_request_filter transaction_filter event_type_filter =
      Spec.transactionsSection transaction_filter event_type_filter := by
  unfold get_subscribe_request_filter Spec.transactionsSection
  rw [enum_map_eq_range_map]

/-- C4: a filter section that is logically disabled by the EventTypeFilter,
or absent from the inputs, appears in the final wire request as an
explicitly empty map, never as an omitted field: supplying no accounts or
transactions map fills the corresponding field with the empty map, and an
EventTypeFilter that excludes the respective category makes the compiled
accounts, transactions, blocks and block-metadata fields empty maps. -/
theorem disabled_sections_compile_to_empty_maps
    (account_filter : List AccountFilter)
    (transaction_filter : List TransactionFilter)
    (c : Option CommitmentLevel) (f : EventTypeFilter)
    (tx : Option TransactionsFilterMap) (acc : Option AccountsFilterMap)
    (etf : Option EventTypeFilter) :
    (subscribe_with_request tx none c etf).accounts = [] ∧
    (subscribe_with_request none acc c etf).transactions = [] ∧
    (f.include_account_event = false →
      (compileRequest account_filter transaction_filter c (some f)).accounts = []) ∧
    (f.include_transaction_event = false →
      (compileRequest account_filter transaction_filter c (some f)).transactions = []) ∧
    (f.include_block_event = false →
      (compileRequest account_filter transaction_filter c (some f)).blocks = [] ∧
      (compileRequest account_filter transaction_filter c (some f)).blocks_meta = []) := by
  refine ⟨rfl, rfl, ?_, ?_, ?_⟩ <;> intro h <;>
    simp [compileRequest, subscribe_with_request, subscribe_with_account_request,
      get_subscribe_request_filter, h]

/-- Witness for C4 at a concrete input: the all-excluding EventTypeFilter
with empty filter inputs yields empty maps in all four sections. -/
theorem disabled_sections_compile_to_empty_maps_witness :
    (subscribe_with_request none none none none).accounts = [] ∧
    (subscribe_with_request none none none none).transactions = [] ∧
    (compileRequest [] [] none (some ⟨false, false, false⟩)).accounts = [] ∧
    (compileRequest [] [] none (some ⟨false, false, false⟩)).transactions = [] ∧
    (compileRequest [] [] none (some ⟨false, false, false⟩)).blocks = [] ∧
    (compileRequest [] [] none (some ⟨false, false, false⟩)).blocks_meta = [] := by
  have h := disabled_sections_compile_to_empty_maps [] [] none
    ⟨false, false, false⟩ none none none
  exact ⟨h.1, h.2.1, h.2.2.1 rfl, h.2.2.2.1 rfl, (h.2.2.2.2 rfl).1, (h.2.2.2.2 rfl).2⟩

/-- C5: the compiled request's commitment field is always populated: it
carries the caller-supplied level's wire code when one is supplied, and the
weakest level Processed exactly when the caller supplies none. -/
theorem commitment_defaults_to_processed (tx : Option TransactionsFilterMap)
    (acc : Option AccountsFilterMap) (etf : Option EventTypeFilter)
    (c : Option CommitmentLevel) :
    (subscribe_with_request tx acc c etf).commitment =
      some (match c with
            | some l => l.toI32
            | none => CommitmentLevel.Processed.toI32) ∧
    ((subscribe_with_request tx acc c etf).commitment =
        some CommitmentLevel.Processed.toI32 ↔
      c = none ∨ c = some CommitmentLevel.Processed) := by
  cases c with
  | none => simp [subscribe_with_request]
  | some l => cases l <;> simp [subscribe_with_request, CommitmentLevel.toI32]

/-- C6: compilation is deterministic and idempotent — recompiling the same
inputs yields an identical wire request — and every entry label is derived
only from the input element's position: whenever a section compiles to a
map, its label list is exactly the position labels for the input length. -/
theorem compilation_deterministic (account_filter : List AccountFilter)
    (transaction_filter : List TransactionFilter)
    (c : Option CommitmentLevel) (etf : Option EventTypeFilter) :
    compileRequest account_filter transaction_filter c etf =
      compileRequest account_filter transaction_filter c etf ∧
    (∀ m, subscribe_with_account_request account_filter etf = some m →
      m.map Prod.fst =
        (List.range account_filter.length).map (fun i => "account_" ++ toString i)) ∧
    (∀ m, get_subscribe_request_filter transaction_filter etf = some m →
      m.map Prod.fst =
        (List.range transaction_filter.length).map
          (fun i => "transaction_" ++ toString i)) := by
  refine ⟨rfl, ?_, ?_⟩ <;> intro m hm
  · unfold subscribe_with_account_request at hm
    split at hm
    · exact absurd hm (by simp)
    · split at hm
      · exact absurd hm (by simp)
      · cases hm
        rw [enum_map_eq_range_map]
        simp
  · unfold get_subscribe_request_filter at hm
    split at hm
    · exact absurd hm (by simp)
    · cases hm
      rw [enum_map_eq_range_map]
      simp

/-- Witness for C6 at a concrete input: one account filter and one
transaction filter compile to maps labelled account_0 and transaction_0. -/
theorem compilation_deterministic_witness :
    compileRequest [⟨["a"], ["o"], []⟩] [⟨["i"], ["e"], ["r"]⟩] none none =
      compileRequest [⟨["a"], ["o"], []⟩] [⟨["i"], ["e"], ["r"]⟩] none none ∧
    ([("account_0", ⟨["a"], ["o"], [], none⟩)] : AccountsFilterMap).map Prod.fst =
      (List.range 1).map (fun i => "account_" ++ toString i) ∧
    ([("transaction_0",
        ⟨some false, some false, none, ["i"], ["e"], ["r"]⟩)] :
        TransactionsFilterMap).map Prod.fst =
      (List.range 1).map (fun i => "transaction_" ++ toString i) := by
  have h := compilation_deterministic [⟨["a"], ["o"], []⟩] [⟨["i"], ["e"], ["r"]⟩]
    none none
  exact ⟨h.1, h.2.1 _ rfl, h.2.2 _ rfl⟩

/-- C7: the section compilers are total and perform no validation: for
every input, malformed or not, whether a section compiles to a map is a
function only of the event-category decision and (for accounts) input
emptiness — the filter content itself is never inspected, only passed
through. -/
theorem compilers_cannot_fail (account_filter : List AccountFilter)
    (transaction_filter : List TransactionFilter)
    (etf : Option EventTypeFilter) :
    (subscribe_with_account_request account_filter etf).isSome =
      (!(etf.any fun f => !f.include_account_event) && !account_filter.isEmpty) ∧
    (get_subscribe_request_filter transaction_filter etf).isSome =
      !(etf.any fun f => !f.include_transaction_event) := by
  constructor
  · unfold subscribe_with_account_request
    rcases h : etf.any (fun f => !f.include_account_event) with _ | _ <;>
      cases account_filter <;> simp [h]
  · unfold get_subscribe_request_filter
    rcases h : etf.any (fun f => !f.include_transaction_event) with _ | _ <;>
      simp [h]

theorem stop_iterate_collapse (n : Nat) (s : SessionState) :
    SessionState.stop^[n + 1] s = s.stop := by
  induction n generalizing s with
  | zero => rfl
  | succ k ih =>
      rw [Function.iterate_succ_apply, ih]
      rfl

/-- C8: stop is idempotent and safe under any interleaving of calls from
clones: since every clone shares the one cancellation flag, each call is
the same state transformation, repeating it any positive number of times —
any serialization of sequential or concurrent calls — equals calling it
once, and every call observes termination (the flag set). -/
theorem stop_idempotent (s : SessionState) (n : Nat) :
    s.stop.stop = s.stop ∧
    SessionState.stop^[n + 1] s = s.stop ∧
    s.stop.cancelled = true :=
  ⟨rfl, stop_iterate_collapse n s, rfl⟩

/-- C9: the connect builder chain always configures TLS with the
platform's native trusted roots, bounds the maximum inbound (decoding)
message size to the configured limit, sets the two separate configured
timeouts — connection establishment and per-request — and the connect
entry point hands exactly this configuration to the transport, returning
the transport's connection error verbatim to the caller when establishment
fails. -/
theorem connect_configures_channel (m : SubscriptionManager)
    (env : GeyserGrpcBuilder → Except String Unit) :
    m.connect_config.tls_native_roots = true ∧
    m.connect_config.max_decoding_message_size =
      m.config.connection.max_decoding_message_size ∧
    m.connect_config.connect_timeout =
      some m.config.connection.connect_timeout ∧
    m.connect_config.request_timeout =
      some m.config.connection.request_timeout ∧
    m.connect env = env m.connect_config :=
  ⟨rfl, rfl, rfl, rfl, rfl⟩

/-- C10: the empty-input edge case is asymmetric: on an empty input the
transactions-section compiler still returns a map (empty) whenever the
EventTypeFilter permits transaction events or is absent, while the
accounts-section compiler returns none for an empty input regardless of
the EventTypeFilter; the final wire request carries an empty map for both
sections either way. -/
theorem empty_input_asymmetry (etf : Option EventTypeFilter)
    (c : Option CommitmentLevel) :
    get_subscribe_request_filter [] etf =
      (if etf.any (fun f => !f.include_transaction_event) then none
       else some []) ∧
    subscribe_with_account_request [] etf = none ∧
    (compileRequest [] [] c etf).transactions = [] ∧
    (compileRequest [] [] c etf).accounts = [] := by
  refine ⟨?_, ?_, ?_, ?_⟩
  · unfold get_subscribe_request_filter
    rcases h : etf.any (fun f => !f.include_transaction_event) with _ | _ <;> simp [h]
  · unfold subscribe_with_account_request
    rcases h : etf.any (fun f => !f.include_account_event) with _ | _ <;> simp [h]
  · unfold compileRequest subscribe_with_request get_subscribe_request_filter
    rcases h : etf.any (fun f => !f.include_transaction_event) with _ | _ <;> simp [h]
  · unfold compileRequest subscribe_with_request subscribe_with_account_request
    rcases h : etf.any (fun f => !f.include_account_event) with _ | _ <;> simp [h]
